import Mathlib

/-!
Verification development for the ChipInspect core (src/src/main.py).

The Python helpers are shallowly embedded: Python `str` values become
`List Char`, Python `int` becomes `Nat` (registers are unsigned 32-bit
values, so explicit `% 2 ^ 32` bounds appear where overflow matters),
and fallible conversions (Python exceptions from `int(...)` or
`int.to_bytes`) become `Option`.  The two unbounded `while` loops of the
enumerator are embedded with an explicit fuel argument; exhausting the
fuel (`none`) models non-termination within that iteration budget.
-/

namespace ChipInspect

/-- The four 32-bit result registers of one CPUID probe, i.e. the tuple
returned by `call_cpuid` (main.py lines 914-925). -/
structure RegisterQuad where
  eax : Nat
  ebx : Nat
  ecx : Nat
  edx : Nat
deriving DecidableEq, Repr

/-- Character for one bit value, modelling Python `str((value >> i) & 1)`
where the argument is always 0 or 1. -/
def bitChar (b : Nat) : Char := if b = 1 then '1' else '0'

/-- Byte to displayed character as in `binary_to_char`/`hex_to_char`:
a printable ASCII byte (32..126) becomes its character, anything else the
placeholder dot. -/
def printableDot (byte : Nat) : Char :=
  if 32 ≤ byte ∧ byte ≤ 126 then Char.ofNat byte else '.'

/-- `binary_to_char` (main.py lines 994-1002): the four little-endian bytes
of the value, each mapped through the printable filter, in byte order
0,1,2,3 with no reversal. -/
def binary_to_char (value : Nat) : List Char :=
  (List.range 4).map (fun i => printableDot ((value >>> (i * 8)) &&& 0xFF))

/-- Value of one hexadecimal digit character, modelling what Python
`int(c, 16)` accepts for a single ASCII digit: `0`-`9`, `a`-`f`, `A`-`F`;
`none` models the `ValueError` raised on any other character. -/
def hexDigitVal (c : Char) : Option Nat :=
  if 48 ≤ c.toNat ∧ c.toNat ≤ 57 then some (c.toNat - 48)
  else if 97 ≤ c.toNat ∧ c.toNat ≤ 102 then some (c.toNat - 87)
  else if 65 ≤ c.toNat ∧ c.toNat ≤ 70 then some (c.toNat - 55)
  else none

/-- Value of a two-character slice, modelling `int(hex_value[i:i+2], 16)`. -/
def hexPairVal (c1 c2 : Char) : Option Nat :=
  (hexDigitVal c1).bind (fun h => (hexDigitVal c2).map (fun l => 16 * h + l))

/-- Left pad with `0` characters to width `w`, modelling `str.zfill(w)`. -/
def zfill (w : Nat) (s : List Char) : List Char :=
  List.replicate (w - s.length) '0' ++ s

/-- Drop a leading `0x`, modelling the
`if s.startswith("0x"): s = s[2:]` idiom of `hex_to_char`/`hex_to_binary`. -/
def strip0x (s : List Char) : List Char :=
  if s.take 2 = ['0', 'x'] then s.drop 2 else s

/-- The pair loop of `hex_to_char`: each two-character slice is parsed with
`int(_, 16)` and mapped through the printable filter.  A trailing single
character (odd length, unreachable after `zfill`) parses as one digit,
matching Python slice semantics. -/
def hexPairsToChars : List Char → Option (List Char)
  | [] => some []
  | [c] => (hexDigitVal c).map (fun b => [printableDot b])
  | c1 :: c2 :: rest =>
      (hexPairVal c1 c2).bind (fun b =>
        (hexPairsToChars rest).map (fun cs => printableDot b :: cs))

/-- `hex_to_char` (main.py lines 1004-1020): strip `0x`, zero-fill to even
length, convert hex pairs to characters, and reverse the character order.
`none` models the `ValueError` from `int` on a non-hex digit. -/
def hex_to_char (hex_value : List Char) : Option (List Char) :=
  let s1 := strip0x hex_value
  let s2 := zfill ((s1.length + 1) / 2 * 2) s1
  (hexPairsToChars s2).map List.reverse

/-- The uncolored bit string built by `print_bits` (main.py lines 927-943):
`str((value >> i) & 1)` joined for `i = num_bits - 1` down to `0`. -/
def print_bits_str (value num_bits : Nat) : List Char :=
  (List.range num_bits).reverse.map (fun i => bitChar ((value >>> i) &&& 1))

/-- Reinterpret a `0`/`1` string as a base-2 numeral, most significant digit
first, modelling `int(s, 2)` on a binary string. -/
def fromBase2 (s : List Char) : Nat :=
  s.foldl (fun acc c => 2 * acc + (if c = '1' then 1 else 0)) 0

/-- Fold a list of hex digits into a value; `none` as soon as one digit is
invalid, modelling the `ValueError` of Python `int`. -/
def pythonIntHexCore (s : List Char) : Option Nat :=
  s.foldl (fun acc c => acc.bind (fun a => (hexDigitVal c).map (fun d => 16 * a + d)))
    (some 0)

/-- Python `int(s, 16)`: an optional `0x`/`0X` radix marker followed by at
least one hexadecimal digit. -/
def pythonIntHex (s : List Char) : Option Nat :=
  let t := if s.take 2 = ['0', 'x'] ∨ s.take 2 = ['0', 'X'] then s.drop 2 else s
  if t = [] then none else pythonIntHexCore t

/-- Python `int.to_bytes(4, byteorder little)`: the four bytes of `v`, least
significant first; `none` models the `OverflowError` when `v` does not fit
in four bytes. -/
def toBytesLe4 (v : Nat) : Option (List Nat) :=
  if v < 2 ^ 32 then some [v % 256, v / 2 ^ 8 % 256, v / 2 ^ 16 % 256, v / 2 ^ 24 % 256]
  else none

/-- Python `bytes.decode` with the ascii codec and errors ignored: bytes
below 128 become their character, all others are silently dropped. -/
def decodeAsciiIgnore (bs : List Nat) : List Char :=
  (bs.filter (fun b => b < 128)).map Char.ofNat

/-- `int_hex_to_char` (main.py lines 1028-1036): parse the hex string as an
integer, serialize as 4 little-endian bytes, decode as ASCII ignoring
non-ASCII bytes. -/
def int_hex_to_char (hex_value : List Char) : Option (List Char) :=
  (pythonIntHex hex_value).bind (fun v => (toBytesLe4 v).map decodeAsciiIgnore)

/-- Non-ASCII code points accepted by Python `str.isdigit`: characters with
Unicode property Numeric_Type equal to Decimal or Digit.  The full Unicode
set is large; this list carries the common blocks (superscript and
subscript digits, Arabic-Indic, extended Arabic-Indic, Devanagari,
fullwidth digits) and in particular every non-ASCII code point evaluated in
this development.  Every listed code point is at least 178, so on ASCII
strings the model of `str.isdigit` below is exact. -/
def pyUnicodeDigit (n : Nat) : Bool :=
  decide (n = 0xB2 ∨ n = 0xB3 ∨ n = 0xB9 ∨
    (0x660 ≤ n ∧ n ≤ 0x669) ∨ (0x6F0 ≤ n ∧ n ≤ 0x6F9) ∨
    (0x966 ≤ n ∧ n ≤ 0x96F) ∨ n = 0x2070 ∨ (0x2074 ≤ n ∧ n ≤ 0x2079) ∨
    (0x2080 ≤ n ∧ n ≤ 0x2089) ∨ (0xFF10 ≤ n ∧ n ≤ 0xFF19))

/-- Model of Python `str.isdigit` on one character: the ASCII digits plus
the Unicode digit characters (`pyUnicodeDigit`).  Note Python accepts more
than hexadecimal input here: a Unicode digit such as U+0662 passes this
check although it is not a hexadecimal digit. -/
def pyIsDigit (c : Char) : Bool :=
  decide (48 ≤ c.toNat ∧ c.toNat ≤ 57) || pyUnicodeDigit c.toNat

/-- ASCII model of Python `str.lower` on one character code point. -/
def pyLowerNat (n : Nat) : Nat := if 65 ≤ n ∧ n ≤ 90 then n + 32 else n

/-- One character of the validity check of `is_valid_hex_input`:
`c.isdigit() or c.lower() in 'abcdef'`. -/
def isHexCharPy (c : Char) : Bool :=
  pyIsDigit c || decide (97 ≤ pyLowerNat c.toNat ∧ pyLowerNat c.toNat ≤ 102)

/-- `is_valid_hex_input` (main.py lines 1038-1044): exactly 8 characters all
passing the hex-character check, or exactly 10 characters whose first two,
lowercased, are `0x` (code points 48, 120) with the remaining 8 passing the
check. -/
def is_valid_hex_input (s : List Char) : Bool :=
  if s.length = 8 then s.all isHexCharPy
  else if s.length = 10 ∧ (s.take 2).map (fun c => pyLowerNat c.toNat) = [48, 120] then
    (s.drop 2).all isHexCharPy
  else false

/-- The validation gate of `inspect_register_leaf` (main.py lines
1531-1571): decoding proceeds only when all four register strings pass
`is_valid_hex_input`; on the first failure the function returns without
decoding. -/
def inspect_register_leaf_decodes (eax ebx ecx edx : List Char) : Bool :=
  is_valid_hex_input eax && is_valid_hex_input ebx &&
    is_valid_hex_input ecx && is_valid_hex_input edx

/-- The `while True` loop of `max_leaf` (main.py lines 1047-1058), with an
explicit fuel bound on the number of iterations; `none` means the loop did
not stop within `fuel` probes. -/
def max_leaf_loop (probe : Nat → Nat → RegisterQuad) : Nat → Nat → Nat → Option Nat
  | 0, _, _ => none
  | fuel + 1, leaf, maxSupported =>
      if (probe leaf 0).eax = 0 then some maxSupported
      else max_leaf_loop probe fuel (leaf + 1) leaf

/-- `max_leaf` (main.py lines 1047-1058): starts at leaf 0 with
`max_leaf_supported = 0`. -/
def max_leaf (probe : Nat → Nat → RegisterQuad) (fuel : Nat) : Option Nat :=
  max_leaf_loop probe fuel 0 0

/-- The `while True` loop of `probe_max_subleaf` (main.py lines 1061-1075),
with explicit fuel; the state is the current subleaf index and the
`previous_eax` optional value. -/
def probe_max_subleaf_loop (probeLeaf : Nat → RegisterQuad) :
    Nat → Nat → Option Nat → Option Int
  | 0, _, _ => none
  | fuel + 1, max_subleaf, previous_eax =>
      if previous_eax = some (probeLeaf max_subleaf).eax then
        some ((max_subleaf : Int) - 1)
      else
        probe_max_subleaf_loop probeLeaf fuel (max_subleaf + 1)
          (some (probeLeaf max_subleaf).eax)

/-- `probe_max_subleaf` (main.py lines 1061-1075): starts at subleaf 0 with
`previous_eax = None`; returns `max_subleaf - 1` (as a Python `int`, so the
result type is `Int`). -/
def probe_max_subleaf (probe : Nat → Nat → RegisterQuad) (leaf : Nat) (fuel : Nat) :
    Option Int :=
  probe_max_subleaf_loop (probe leaf) fuel 0 none

/-- Binary digits of `v`, most significant first, modelling Python
`bin(v)[2:]` (a single `0` for `v = 0`). -/
def binDigits (v : Nat) : List Char :=
  if h : v < 2 then [bitChar (v % 2)]
  else binDigits (v / 2) ++ [bitChar (v % 2)]
decreasing_by omega

/-- Python format spec `032b` as used by the inspect functions
(`f-string` formatting of a register): binary digits zero-filled to 32
characters, most significant bit first. -/
def format032b (v : Nat) : List Char := zfill 32 (binDigits v)

/-- Fixed-width binary rendering, most significant first; reasoning helper
equal to `format032b` on 32-bit values. -/
def toBinPad : Nat → Nat → List Char
  | 0, _ => []
  | n + 1, v => toBinPad n (v / 2) ++ [bitChar (v % 2)]

/-- The decode pass of the `inspect_` functions (e.g. main.py lines
1883-1890): for each `(bit_index, description)` table entry, in table
order, read character `31 - bit_index` of the 32-character binary string
of the register. -/
def decode_bits (table : List (Nat × String)) (reg : Nat) :
    List (Nat × Option Char × String) :=
  table.map (fun p => (p.1, (format032b reg).get? (31 - p.1), p.2))

/-- One uppercase hexadecimal digit character as produced by Python format
`X`. -/
def hexDigitChar (d : Nat) : Char :=
  if d < 10 then Char.ofNat (48 + d) else Char.ofNat (55 + d)

/-- The 8-digit zero-padded uppercase hexadecimal rendering of a 32-bit
value, i.e. Python format `08X` used throughout the program to render
registers as text. -/
def hexRender8 (v : Nat) : List Char :=
  [hexDigitChar (v / 16 ^ 7 % 16), hexDigitChar (v / 16 ^ 6 % 16),
   hexDigitChar (v / 16 ^ 5 % 16), hexDigitChar (v / 16 ^ 4 % 16),
   hexDigitChar (v / 16 ^ 3 % 16), hexDigitChar (v / 16 ^ 2 % 16),
   hexDigitChar (v / 16 % 16), hexDigitChar (v % 16)]


/-- Bit table `intel_leaf1_ebx_bits` (src/src/main.py). -/
def intel_leaf1_ebx_bits : List (Nat × String) := [
  (31, "Bit 31: Initial APIC value"),
  (30, "Bit 30: Initial APIC value"),
  (29, "Bit 29: Initial APIC value"),
  (28, "Bit 28: Initial APIC value"),
  (27, "Bit 27: Initial APIC value"),
  (26, "Bit 26: Initial APIC value"),
  (25, "Bit 25: Initial APIC value"),
  (24, "Bit 24: Initial APIC value"),
  (23, "Bit 23: Logical processors"),
  (22, "Bit 22: Logical processors"),
  (21, "Bit 21: Logical processors"),
  (20, "Bit 20: Logical processors"),
  (19, "Bit 19: Logical processors"),
  (18, "Bit 18: Logical processors"),
  (17, "Bit 17: Logical processors"),
  (16, "Bit 16: Logical processors"),
  (15, "Bit 15: CLFLUSH line size"),
  (14, "Bit 14: CLFLUSH line size"),
  (13, "Bit 13: CLFLUSH line size"),
  (12, "Bit 12: CLFLUSH line size"),
  (11, "Bit 11: CLFLUSH line size"),
  (10, "Bit 10: CLFLUSH line size"),
  (9, "Bit  9: CLFLUSH line size"),
  (8, "Bit  8: CLFLUSH line size"),
  (7, "Bit  7: Brand index"),
  (6, "Bit  6: Brand index"),
  (5, "Bit  5: Brand index"),
  (4, "Bit  4: Brand index"),
  (3, "Bit  3: Brand index"),
  (2, "Bit  2: Brand index"),
  (1, "Bit  1: Brand index"),
  (0, "Bit  0: Brand index")]

/-- Bit table `intel_leaf1_ecx_bits` (src/src/main.py). -/
def intel_leaf1_ecx_bits : List (Nat × String) := [
  (31, "Bit 31: Hypervisor present (always zero on physical CPUs)"),
  (30, "Bit 30: RDRAND (on-chip random number generator) feature"),
  (29, "Bit 29: Floating-point conversion instructions to/from FP16 format (F16C)"),
  (28, "Bit 28: Advanced Vector Extensions (AVX)"),
  (27, "Bit 27: XSAVE enabled by OS (OSXSAVE)"),
  (26, "Bit 26: Extensible processor state save/restore (XSAVE, XRSTOR, XSETBV, XGETBV)"),
  (25, "Bit 25: AES instruction set (AES-NI)"),
  (24, "Bit 24: APIC implements one-shot operation using a TSC deadline value (TSC-DEADLINE)"),
  (23, "Bit 23: POPCNT instruction"),
  (22, "Bit 22: MOVBE instruction (big-endian MOV)"),
  (21, "Bit 21: x2APIC (enhanced APIC)"),
  (20, "Bit 20: SSE4.2 instructions"),
  (19, "Bit 19: SSE4.1 instructions"),
  (18, "Bit 18: Direct cache access for DMA writes (DCA)"),
  (17, "Bit 17: Process context identifiers (CR4 Bit 17) (PCID)"),
  (16, "Bit 16: Reserved"),
  (15, "Bit 15: Perfmon & debug capability (PDCM)"),
  (14, "Bit 14: Can disable sending task priority messages (XTPR)"),
  (13, "Bit 13: CMPXCHG16B instruction"),
  (12, "Bit 12: Fused multiply-add (FMA3)"),
  (11, "Bit 11: Silicon Debug interface (SDBG)"),
  (10, "Bit 10: L1 Context ID (CNXT-ID)"),
  (9, "Bit  9: Supplemental SSE3 instructions"),
  (8, "Bit  8: Thermal Monitor 2 (TM2)"),
  (7, "Bit  7: Enhanced SpeedStep (EST)"),
  (6, "Bit  6: Safer Mode Extensions (SMX) (GETSEC instruction)"),
  (5, "Bit  5: Virtual Machine eXtensions (VMX)"),
  (4, "Bit  4: CPL qualified debug store (DS-CPL)"),
  (3, "Bit  3: MONITOR and MWAIT instructions (PNI)"),
  (2, "Bit  2: 64-bit debug store (DTES64) (EDX Bit 21)"),
  (1, "Bit  1: PCLMULQDQ (carry-less multiply) instruction"),
  (0, "Bit  0: SSE3 (Prescott New Instructions - PNI)")]

/-- Bit table `intel_leaf1_edx_bits` (src/src/main.py). -/
def intel_leaf1_edx_bits : List (Nat × String) := [
  (31, "Bit 31: Pending break enable (PBE)"),
  (30, "Bit 30: Reserved"),
  (29, "Bit 29: Thermal monitor (TM)"),
  (28, "Bit 28: HyperThreading / max APIC IDs field is valid (HTT)"),
  (27, "Bit 27: Self Snoop (SS)"),
  (26, "Bit 26: SSE2"),
  (25, "Bit 25: SSE"),
  (24, "Bit 24: FXSAVE/FXSTOR instructions (FXSR)"),
  (23, "Bit 23: MMX"),
  (22, "Bit 22: ACPI"),
  (21, "Bit 21: Debug store (DS)"),
  (20, "Bit 20: Reserved"),
  (19, "Bit 19: CLFLUSH support (CLFSH)"),
  (18, "Bit 18: Processor serial number (PSN)"),
  (17, "Bit 17: 32-bit page size extension (PSE36)"),
  (16, "Bit 16: Page attribute table (PAT)"),
  (15, "Bit 15: Conditional move instructions (CMOV)"),
  (14, "Bit 14: Machine check architecture (MCA)"),
  (13, "Bit 13: Page global bit (PGE)"),
  (12, "Bit 12: Memory type range registers (MTRR)"),
  (11, "Bit 11: SYSENTER/SYSEXIT instructions (SEP)"),
  (10, "Bit 10: Reserved"),
  (9, "Bit  9: APIC on chip (APIC)"),
  (8, "Bit  8: CMPXCHG8B (CX8)"),
  (7, "Bit  7: Machine check exception (MCE)"),
  (6, "Bit  6: Physical address extension (PAE)"),
  (5, "Bit  5: Model specific registers (MSR)"),
  (4, "Bit  4: Time stamp counter (TSC)"),
  (3, "Bit  3: Page size extension (PSE)"),
  (2, "Bit  2: Debugging extensions (DE)"),
  (1, "Bit  1: Virtual 8086 mode enhancements (VME)"),
  (0, "Bit  0: x87 FPU on chip (FPU)")]

/-- Bit table `intel_leaf7_ebx_bits` (src/src/main.py). -/
def intel_leaf7_ebx_bits : List (Nat × String) := [
  (31, "Bit 31: AVX512 Vector Length (VL) Extensions"),
  (30, "Bit 30: AVX512 Byte and Word (BW) Instructions"),
  (29, "Bit 29: SHA-1 and SHA-256 Extensions"),
  (28, "Bit 28: AVX-512 Conflict Detection (CD) Instructions"),
  (27, "Bit 27: AVX-512 Exponential and Reciprocal (ER) Instructions"),
  (26, "Bit 26: AVX-512 Prefetch (PF) Instructions"),
  (25, "Bit 25: Intel Processor Trace (IPT)"),
  (24, "Bit 24: Cache line writeback (CLWB)"),
  (23, "Bit 23: CLFLUSHOPT instruction"),
  (22, "Bit 22: PCOMMIT instruction"),
  (21, "Bit 21: AVX-512 Integer Fused Multiply-Add (IFMA) Instructions"),
  (20, "Bit 20: Supervisor Mode Access Prevention (SMAP)"),
  (19, "Bit 19: Intel ADX (Multi-Precision Add-Carry Instruction Extensions)"),
  (18, "Bit 18: RDSEED - Supports RDSEED instruction"),
  (17, "Bit 17: AVX-512 Doubleword and Quadword (DQ) Instructions"),
  (16, "Bit 16: AVX-512 Foundation Instructions"),
  (15, "Bit 15: Intel Resource Director (RDT) Allocation"),
  (14, "Bit 14: Intel Memory Protection Extensions (MPX)"),
  (13, "Bit 13: x87 FPU CS and DS Instructions"),
  (12, "Bit 12: Intel Resource Director (RDT) Monitoring"),
  (11, "Bit 11: Restricted Transactional Memory"),
  (10, "Bit 10: INVPCID instruction"),
  (9, "Bit  9: Enhanced REP MOVSB/STOSB (ERMS)"),
  (8, "Bit  8: Bit Manipulation Instruction Set 2 (BMI2)"),
  (7, "Bit  7: Supervisor Mode Execution Protection (SMEP)"),
  (6, "Bit  6: FDP exception only (FDP_EXCPTN_ONLY) feature"),
  (5, "Bit  5: Advanced Vector Extensions 2 (AVX2)"),
  (4, "Bit  4: Hardware Lock Elision (HLE)"),
  (3, "Bit  3: Bit Manipulation Instruction Set 1 (BMI1)"),
  (2, "Bit  2: Intel Software Guard Extensions (SGX)"),
  (1, "Bit  1: IA32_TSC_ADJUST MSR"),
  (0, "Bit  0: FSGSBASE instructions")]

/-- Bit table `intel_leaf7_ecx_bits` (src/src/main.py). -/
def intel_leaf7_ecx_bits : List (Nat × String) := [
  (31, "Bit 31: Protection keys for supervisor-mode pages (PKS)"),
  (30, "Bit 30: SGX launch configuration"),
  (29, "Bit 29: Enqueue stores (ENQCMD)"),
  (28, "Bit 28: 64-bit direct stores (MOVDIRI64B)"),
  (27, "Bit 27: 32-bit direct stores (MOVDIRI)"),
  (26, "Bit 26: Reserved"),
  (25, "Bit 25: Cache line demote (CLDEMOTE)"),
  (24, "Bit 24: Reserved"),
  (23, "Bit 23: Key locker (KL)"),
  (22, "Bit 22: Read processor ID (RDPID)"),
  (21, "Bit 21: Value of MAWAU used by BNDLDX and BNDSTX instructions in 64-bit mode"),
  (20, "Bit 20: Value of MAWAU used by BNDLDX and BNDSTX instructions in 64-bit mode"),
  (19, "Bit 19: Value of MAWAU used by BNDLDX and BNDSTX instructions in 64-bit mode"),
  (18, "Bit 18: Value of MAWAU used by BNDLDX and BNDSTX instructions in 64-bit mode"),
  (17, "Bit 17: Value of MAWAU used by BNDLDX and BNDSTX instructions in 64-bit mode"),
  (16, "Bit 16: 5-level paging (LA57)"),
  (15, "Bit 15: Reserved"),
  (14, "Bit 14: AVX512 VPOPCNTDQ"),
  (13, "Bit 13: Total memory encryption (TME) enable"),
  (12, "Bit 12: AVX512 bitwise algorithms (AVX512BITALG)"),
  (11, "Bit 11: AVX512 vector neural network instructions (AVX512VNNI)"),
  (10, "Bit 10: VEX-encoded PCLMUL (VPCL)"),
  (9, "Bit  9: VEX-encoded AES-NI (VAES)"),
  (8, "Bit  8: Galois field NI / Galois field affine transformation (GFNI)"),
  (7, "Bit  7: CET shadow stack (CET SS)"),
  (6, "Bit  6: AVX512 VBMI2"),
  (5, "Bit  5: Wait and pause enhancements (WAITPKG)"),
  (4, "Bit  4: OS support enabled for protection keys (OSPKE)"),
  (3, "Bit  3: Supports protection keys for user-mode pages (PKU)"),
  (2, "Bit  2: User-mode instruction prevention (UMIP)"),
  (1, "Bit  1: AVX512 vector byte manipulation instructions (AVX512VBMI)"),
  (0, "Bit  0: PREFETCHWT1")]

/-- Bit table `intel_leaf7_edx_bits` (src/src/main.py). -/
def intel_leaf7_edx_bits : List (Nat × String) := [
  (31, "Bit 31: Speculative store bypass disable (SSBD)"),
  (30, "Bit 30: IA32_CORE_CAPABILITIES MSR available"),
  (29, "Bit 29: IA32_ARCH_CAPABILITIES MSR available"),
  (28, "Bit 28: L1 data cache (L1D) flush"),
  (27, "Bit 27: Single thread indirect branch predictors (STIBP)"),
  (26, "Bit 26: Speculation control (IBRS and IPBP)"),
  (25, "Bit 25: Tile computation on 8-bit integers (AMX-INT8)"),
  (24, "Bit 24: Tile architecture (AMX-TILE)"),
  (23, "Bit 23: AVX512 FP16"),
  (22, "Bit 22: Tile computation on bfloat16 (AMX-BF16)"),
  (21, "Bit 21: Reserved"),
  (20, "Bit 20: CET indirect branch tracking (CET IBT)"),
  (19, "Bit 19: Reserved"),
  (18, "Bit 18: Platform configuration instruction (PCONFIG)"),
  (17, "Bit 17: Reserved"),
  (16, "Bit 16: TSX suspend load address tracking"),
  (15, "Bit 15: Hybrid architecture"),
  (14, "Bit 14: SERIALIZE instruction"),
  (13, "Bit 13: TSX force abort MSR available"),
  (12, "Bit 12: Reserved"),
  (11, "Bit 11: Reserved"),
  (10, "Bit 10: Microarchitectural data sampling mitigation (MD_CLEAR)"),
  (9, "Bit  9: Reserved"),
  (8, "Bit  8: AVX512 VP2INTERSECT dword/qword intersection instructions"),
  (7, "Bit  7: Reserved"),
  (6, "Bit  6: Reserved"),
  (5, "Bit  5: User interrupts (UINTR)"),
  (4, "Bit  4: Fast short REP MOV"),
  (3, "Bit  3: AVX512 4FMAPS 4-iteration fused multiply-add"),
  (2, "Bit  2: AVX512 4VNNIW 4-iteration dot product with accumulation"),
  (1, "Bit  1: Reserved"),
  (0, "Bit  0: Reserved")]

/-- Bit table `intel_leaf80000001_ebx_bits` (src/src/main.py). -/
def intel_leaf80000001_ebx_bits : List (Nat × String) := [
  (31, "Bit 31: Reserved"),
  (30, "Bit 30: Reserved"),
  (29, "Bit 29: Reserved"),
  (28, "Bit 28: Reserved"),
  (27, "Bit 27: Reserved"),
  (26, "Bit 26: Reserved"),
  (25, "Bit 25: Reserved"),
  (24, "Bit 24: Reserved"),
  (23, "Bit 23: Reserved"),
  (22, "Bit 22: Reserved"),
  (21, "Bit 21: Reserved"),
  (20, "Bit 20: Reserved"),
  (19, "Bit 19: Reserved"),
  (18, "Bit 18: Reserved"),
  (17, "Bit 17: Reserved"),
  (16, "Bit 16: Reserved"),
  (15, "Bit 15: Reserved"),
  (14, "Bit 14: Reserved"),
  (13, "Bit 13: Reserved"),
  (12, "Bit 12: Reserved"),
  (11, "Bit 11: Reserved"),
  (10, "Bit 10: Reserved"),
  (9, "Bit  9: Reserved"),
  (8, "Bit  8: Reserved"),
  (7, "Bit  7: Reserved"),
  (6, "Bit  6: Reserved"),
  (5, "Bit  5: Reserved"),
  (4, "Bit  4: Reserved"),
  (3, "Bit  3: Reserved"),
  (2, "Bit  2: Reserved"),
  (1, "Bit  1: Reserved"),
  (0, "Bit  0: Reserved")]

/-- Bit table `intel_leaf80000001_ecx_bits` (src/src/main.py). -/
def intel_leaf80000001_ecx_bits : List (Nat × String) := [
  (31, "Bit 31: Reserved"),
  (30, "Bit 30: Reserved"),
  (29, "Bit 29: Reserved"),
  (28, "Bit 28: Reserved"),
  (27, "Bit 27: Reserved"),
  (26, "Bit 26: Reserved"),
  (25, "Bit 25: Reserved"),
  (24, "Bit 24: Reserved"),
  (23, "Bit 23: Reserved"),
  (22, "Bit 22: Reserved"),
  (21, "Bit 21: Reserved"),
  (20, "Bit 20: Reserved"),
  (19, "Bit 19: Reserved"),
  (18, "Bit 18: Reserved"),
  (17, "Bit 17: Reserved"),
  (16, "Bit 16: Reserved"),
  (15, "Bit 15: Reserved"),
  (14, "Bit 14: Reserved"),
  (13, "Bit 13: Reserved"),
  (12, "Bit 12: Reserved"),
  (11, "Bit 11: Reserved"),
  (10, "Bit 10: Reserved"),
  (9, "Bit  9: Reserved"),
  (8, "Bit  8: PREFETCHW"),
  (7, "Bit  7: Reserved"),
  (6, "Bit  6: Reserved"),
  (5, "Bit  5: LZCNT"),
  (4, "Bit  4: Reserved"),
  (3, "Bit  3: Reserved"),
  (2, "Bit  2: Reserved"),
  (1, "Bit  1: Reserved"),
  (0, "Bit  0: LAHF/SAHF available in 64-bit mode")]

/-- Bit table `intel_leaf80000001_edx_bits` (src/src/main.py). -/
def intel_leaf80000001_edx_bits : List (Nat × String) := [
  (31, "Bit 31: Reserved"),
  (30, "Bit 30: Reserved"),
  (29, "Bit 29: Intel 64 architecture available (EM64T)"),
  (28, "Bit 28: Reserved"),
  (27, "Bit 27: RDTSCP and IA32_TSC_AUX available"),
  (26, "Bit 26: 1GB pages available"),
  (25, "Bit 25: Reserved"),
  (24, "Bit 24: Reserved"),
  (23, "Bit 23: Reserved"),
  (22, "Bit 22: Reserved"),
  (21, "Bit 21: Reserved"),
  (20, "Bit 20: Execute disable bit (NX) available"),
  (19, "Bit 19: Reserved"),
  (18, "Bit 18: Reserved"),
  (17, "Bit 17: Reserved"),
  (16, "Bit 16: Reserved"),
  (15, "Bit 15: Reserved"),
  (14, "Bit 14: Reserved"),
  (13, "Bit 13: Reserved"),
  (12, "Bit 12: Reserved"),
  (11, "Bit 11: SYSCALL/SYSRET available in 64-bit mode"),
  (10, "Bit 10: Reserved"),
  (9, "Bit  9: Reserved"),
  (8, "Bit  8: Reserved"),
  (7, "Bit  7: Reserved"),
  (6, "Bit  6: Reserved"),
  (5, "Bit  5: Reserved"),
  (4, "Bit  4: Reserved"),
  (3, "Bit  3: Reserved"),
  (2, "Bit  2: Reserved"),
  (1, "Bit  1: Reserved"),
  (0, "Bit  0: Reserved")]

/-- Bit table `amd_leaf1_ebx_bits` (src/src/main.py). -/
def amd_leaf1_ebx_bits : List (Nat × String) := [
  (31, "Bit 31: Reserved"),
  (30, "Bit 30: Reserved"),
  (29, "Bit 29: Reserved"),
  (28, "Bit 28: Reserved"),
  (27, "Bit 27: Reserved"),
  (26, "Bit 26: Reserved"),
  (25, "Bit 25: Reserved"),
  (24, "Bit 24: Reserved"),
  (23, "Bit 23: Reserved"),
  (22, "Bit 22: Reserved"),
  (21, "Bit 21: Reserved"),
  (20, "Bit 20: Reserved"),
  (19, "Bit 19: Reserved"),
  (18, "Bit 18: Reserved"),
  (17, "Bit 17: Reserved"),
  (16, "Bit 16: Reserved"),
  (15, "Bit 15: Reserved"),
  (14, "Bit 14: Reserved"),
  (13, "Bit 13: Reserved"),
  (12, "Bit 12: Reserved"),
  (11, "Bit 11: Reserved"),
  (10, "Bit 10: Reserved"),
  (9, "Bit  9: Reserved"),
  (8, "Bit  8: Reserved"),
  (7, "Bit  7: Reserved"),
  (6, "Bit  6: Reserved"),
  (5, "Bit  5: Reserved"),
  (4, "Bit  4: Reserved"),
  (3, "Bit  3: Reserved"),
  (2, "Bit  2: Reserved"),
  (1, "Bit  1: Reserved"),
  (0, "Bit  0: Reserved")]

/-- Bit table `amd_leaf1_ecx_bits` (src/src/main.py). -/
def amd_leaf1_ecx_bits : List (Nat × String) := [
  (31, "Bit 31: Reserved"),
  (30, "Bit 30: Reserved"),
  (29, "Bit 29: Reserved"),
  (28, "Bit 28: Reserved"),
  (27, "Bit 27: Reserved"),
  (26, "Bit 26: Reserved"),
  (25, "Bit 25: Reserved"),
  (24, "Bit 24: Reserved"),
  (23, "Bit 23: Reserved"),
  (22, "Bit 22: Reserved"),
  (21, "Bit 21: Reserved"),
  (20, "Bit 20: Reserved"),
  (19, "Bit 19: Reserved"),
  (18, "Bit 18: Reserved"),
  (17, "Bit 17: Reserved"),
  (16, "Bit 16: Reserved"),
  (15, "Bit 15: Reserved"),
  (14, "Bit 14: Reserved"),
  (13, "Bit 13: Reserved"),
  (12, "Bit 12: Reserved"),
  (11, "Bit 11: Reserved"),
  (10, "Bit 10: Reserved"),
  (9, "Bit  9: Reserved"),
  (8, "Bit  8: Reserved"),
  (7, "Bit  7: Reserved"),
  (6, "Bit  6: Reserved"),
  (5, "Bit  5: Reserved"),
  (4, "Bit  4: Reserved"),
  (3, "Bit  3: Reserved"),
  (2, "Bit  2: Reserved"),
  (1, "Bit  1: Reserved"),
  (0, "Bit  0: Reserved")]

/-- Bit table `amd_leaf1_edx_bits` (src/src/main.py). -/
def amd_leaf1_edx_bits : List (Nat × String) := [
  (31, "Bit 31: Reserved"),
  (30, "Bit 30: Reserved"),
  (29, "Bit 29: Reserved"),
  (28, "Bit 28: Reserved"),
  (27, "Bit 27: Reserved"),
  (26, "Bit 26: Reserved"),
  (25, "Bit 25: Reserved"),
  (24, "Bit 24: Reserved"),
  (23, "Bit 23: Reserved"),
  (22, "Bit 22: Reserved"),
  (21, "Bit 21: Reserved"),
  (20, "Bit 20: Reserved"),
  (19, "Bit 19: Reserved"),
  (18, "Bit 18: Reserved"),
  (17, "Bit 17: Reserved"),
  (16, "Bit 16: Reserved"),
  (15, "Bit 15: Reserved"),
  (14, "Bit 14: Reserved"),
  (13, "Bit 13: Reserved"),
  (12, "Bit 12: Reserved"),
  (11, "Bit 11: Reserved"),
  (10, "Bit 10: Reserved"),
  (9, "Bit  9: Reserved"),
  (8, "Bit  8: Reserved"),
  (7, "Bit  7: Reserved"),
  (6, "Bit  6: Reserved"),
  (5, "Bit  5: Reserved"),
  (4, "Bit  4: Reserved"),
  (3, "Bit  3: Reserved"),
  (2, "Bit  2: Reserved"),
  (1, "Bit  1: Reserved"),
  (0, "Bit  0: Reserved")]

/-- Bit table `amd_leaf7_ebx_bits` (src/src/main.py). -/
def amd_leaf7_ebx_bits : List (Nat × String) := [
  (31, "Bit 31: Reserved"),
  (30, "Bit 30: Reserved"),
  (29, "Bit 29: Reserved"),
  (28, "Bit 28: Reserved"),
  (27, "Bit 27: Reserved"),
  (26, "Bit 26: Reserved"),
  (25, "Bit 25: Reserved"),
  (24, "Bit 24: Reserved"),
  (23, "Bit 23: Reserved"),
  (22, "Bit 22: Reserved"),
  (21, "Bit 21: Reserved"),
  (20, "Bit 20: Reserved"),
  (19, "Bit 19: Reserved"),
  (18, "Bit 18: Reserved"),
  (17, "Bit 17: Reserved"),
  (16, "Bit 16: Reserved"),
  (15, "Bit 15: Reserved"),
  (14, "Bit 14: Reserved"),
  (13, "Bit 13: Reserved"),
  (12, "Bit 12: Reserved"),
  (11, "Bit 11: Reserved"),
  (10, "Bit 10: Reserved"),
  (9, "Bit  9: Reserved"),
  (8, "Bit  8: Reserved"),
  (7, "Bit  7: Reserved"),
  (6, "Bit  6: Reserved"),
  (5, "Bit  5: Reserved"),
  (4, "Bit  4: Reserved"),
  (3, "Bit  3: Reserved"),
  (2, "Bit  2: Reserved"),
  (1, "Bit  1: Reserved"),
  (0, "Bit  0: Reserved")]

/-- Bit table `amd_leaf7_ecx_bits` (src/src/main.py). -/
def amd_leaf7_ecx_bits : List (Nat × String) := [
  (31, "Bit 31: Reserved"),
  (30, "Bit 30: Reserved"),
  (29, "Bit 29: Reserved"),
  (28, "Bit 28: Reserved"),
  (27, "Bit 27: Reserved"),
  (26, "Bit 26: Reserved"),
  (25, "Bit 25: Reserved"),
  (24, "Bit 24: Reserved"),
  (23, "Bit 23: Reserved"),
  (22, "Bit 22: Reserved"),
  (21, "Bit 21: Reserved"),
  (20, "Bit 20: Reserved"),
  (19, "Bit 19: Reserved"),
  (18, "Bit 18: Reserved"),
  (17, "Bit 17: Reserved"),
  (16, "Bit 16: Reserved"),
  (15, "Bit 15: Reserved"),
  (14, "Bit 14: Reserved"),
  (13, "Bit 13: Reserved"),
  (12, "Bit 12: Reserved"),
  (11, "Bit 11: Reserved"),
  (10, "Bit 10: Reserved"),
  (9, "Bit  9: Reserved"),
  (8, "Bit  8: Reserved"),
  (7, "Bit  7: Reserved"),
  (6, "Bit  6: Reserved"),
  (5, "Bit  5: Reserved"),
  (4, "Bit  4: Reserved"),
  (3, "Bit  3: Reserved"),
  (2, "Bit  2: Reserved"),
  (1, "Bit  1: Reserved"),
  (0, "Bit  0: Reserved")]

/-- Bit table `amd_leaf7_edx_bits` (src/src/main.py). -/
def amd_leaf7_edx_bits : List (Nat × String) := [
  (31, "Bit 31: Reserved"),
  (30, "Bit 30: Reserved"),
  (29, "Bit 29: Reserved"),
  (28, "Bit 28: Reserved"),
  (27, "Bit 27: Reserved"),
  (26, "Bit 26: Reserved"),
  (25, "Bit 25: Reserved"),
  (24, "Bit 24: Reserved"),
  (23, "Bit 23: Reserved"),
  (22, "Bit 22: Reserved"),
  (21, "Bit 21: Reserved"),
  (20, "Bit 20: Reserved"),
  (19, "Bit 19: Reserved"),
  (18, "Bit 18: Reserved"),
  (17, "Bit 17: Reserved"),
  (16, "Bit 16: Reserved"),
  (15, "Bit 15: Reserved"),
  (14, "Bit 14: Reserved"),
  (13, "Bit 13: Reserved"),
  (12, "Bit 12: Reserved"),
  (11, "Bit 11: Reserved"),
  (10, "Bit 10: Reserved"),
  (9, "Bit  9: Reserved"),
  (8, "Bit  8: Reserved"),
  (7, "Bit  7: Reserved"),
  (6, "Bit  6: Reserved"),
  (5, "Bit  5: Reserved"),
  (4, "Bit  4: Reserved"),
  (3, "Bit  3: Reserved"),
  (2, "Bit  2: Reserved"),
  (1, "Bit  1: Reserved"),
  (0, "Bit  0: Reserved")]

/-- Bit table `amd_leaf80000001_ebx_bits` (src/src/main.py). -/
def amd_leaf80000001_ebx_bits : List (Nat × String) := [
  (31, "Bit 31: Reserved"),
  (30, "Bit 30: Reserved"),
  (29, "Bit 29: Reserved"),
  (28, "Bit 28: Reserved"),
  (27, "Bit 27: Reserved"),
  (26, "Bit 26: Reserved"),
  (25, "Bit 25: Reserved"),
  (24, "Bit 24: Reserved"),
  (23, "Bit 23: Reserved"),
  (22, "Bit 22: Reserved"),
  (21, "Bit 21: Reserved"),
  (20, "Bit 20: Reserved"),
  (19, "Bit 19: Reserved"),
  (18, "Bit 18: Reserved"),
  (17, "Bit 17: Reserved"),
  (16, "Bit 16: Reserved"),
  (15, "Bit 15: Reserved"),
  (14, "Bit 14: Reserved"),
  (13, "Bit 13: Reserved"),
  (12, "Bit 12: Reserved"),
  (11, "Bit 11: Reserved"),
  (10, "Bit 10: Reserved"),
  (9, "Bit  9: Reserved"),
  (8, "Bit  8: Reserved"),
  (7, "Bit  7: Reserved"),
  (6, "Bit  6: Reserved"),
  (5, "Bit  5: Reserved"),
  (4, "Bit  4: Reserved"),
  (3, "Bit  3: Reserved"),
  (2, "Bit  2: Reserved"),
  (1, "Bit  1: Reserved"),
  (0, "Bit  0: Reserved")]

/-- Bit table `amd_leaf80000001_ecx_bits` (src/src/main.py). -/
def amd_leaf80000001_ecx_bits : List (Nat × String) := [
  (31, "Bit 31: Reserved"),
  (30, "Bit 30: Breakpoint Addressing Masking (AddrMaskExt)"),
  (29, "Bit 29: MWAITX and MONITORX capability (MONITORX)"),
  (28, "Bit 28: L3 Performance Counter Extensions (PerfCtrExtLLC)"),
  (27, "Bit 27: Performance Time-Stamp Counter (PerfTsc)"),
  (26, "Bit 26: Data Breakpoint Extension (DataBkptExt)"),
  (25, "Bit 25: Reserved"),
  (24, "Bit 24: NB performance counter extensions support (PerfCtrExtNB)"),
  (23, "Bit 23: Processor performance counter extensions (PerfCtrExtCore)"),
  (22, "Bit 22: Topology extensions support"),
  (21, "Bit 21: Trailing bit manipulation instruction support (TBM)"),
  (20, "Bit 20: Reserved"),
  (19, "Bit 19: Reserved"),
  (18, "Bit 18: Reserved"),
  (17, "Bit 17: Translation Cache Extension support (TCE)"),
  (16, "Bit 16: Four-operand FMA instruction support (FMA4)"),
  (15, "Bit 15: Lightweight profiling support (LWP)"),
  (14, "Bit 14: Reserved"),
  (13, "Bit 13: Watchdog Timer support"),
  (12, "Bit 12: SKINIT and STGI are support (SKINIT)"),
  (11, "Bit 11: Extended operation support (XOP)"),
  (10, "Bit 10: Instruction based sampling (IBS)"),
  (9, "Bit  9: OS visible workaround (OSVW)"),
  (8, "Bit  8: PREFETCH and PREFETCHW instructions (3DNowPrefetch)"),
  (7, "Bit  7: Misaligned SSE mode support (MisAlignSse)"),
  (6, "Bit  6: EXTRQ, INSERTQ, MOVNTSS, and MOVNTSD instructions (SSE4A)"),
  (5, "Bit  5: LZCNT instruction support (ABM)"),
  (4, "Bit  4: LOCK MOV CR0 means MOV CR8 (AltMovCr8)"),
  (3, "Bit  3: Extended APIC space (ExtApicSpace)"),
  (2, "Bit  2: Secure Virtual Mode feature (SVM)"),
  (1, "Bit  1: Core multi-processing legacy mode (CmpLegacy)"),
  (0, "Bit  0: LAHF and SAHF instructions in 64-bit mode (LahfSahf)")]

/-- Bit table `amd_leaf80000001_edx_bits` (src/src/main.py). -/
def amd_leaf80000001_edx_bits : List (Nat × String) := [
  (31, "Bit 31: Reserved"),
  (30, "Bit 30: Reserved"),
  (29, "Bit 29: Reserved"),
  (28, "Bit 28: Reserved"),
  (27, "Bit 27: Reserved"),
  (26, "Bit 26: Reserved"),
  (25, "Bit 25: Reserved"),
  (24, "Bit 24: Reserved"),
  (23, "Bit 23: Reserved"),
  (22, "Bit 22: Reserved"),
  (21, "Bit 21: Reserved"),
  (20, "Bit 20: Reserved"),
  (19, "Bit 19: Reserved"),
  (18, "Bit 18: Reserved"),
  (17, "Bit 17: Reserved"),
  (16, "Bit 16: Reserved"),
  (15, "Bit 15: Reserved"),
  (14, "Bit 14: Reserved"),
  (13, "Bit 13: Reserved"),
  (12, "Bit 12: Reserved"),
  (11, "Bit 11: Reserved"),
  (10, "Bit 10: Reserved"),
  (9, "Bit  9: Reserved"),
  (8, "Bit  8: Reserved"),
  (7, "Bit  7: Reserved"),
  (6, "Bit  6: Reserved"),
  (5, "Bit  5: Reserved"),
  (4, "Bit  4: Reserved"),
  (3, "Bit  3: Reserved"),
  (2, "Bit  2: Reserved"),
  (1, "Bit  1: Reserved"),
  (0, "Bit  0: Reserved")]

/-- All bit-description tables defined in the program. -/
def allTables : List (List (Nat × String)) := [
  intel_leaf1_ebx_bits,
  intel_leaf1_ecx_bits,
  intel_leaf1_edx_bits,
  intel_leaf7_ebx_bits,
  intel_leaf7_ecx_bits,
  intel_leaf7_edx_bits,
  intel_leaf80000001_ebx_bits,
  intel_leaf80000001_ecx_bits,
  intel_leaf80000001_edx_bits,
  amd_leaf1_ebx_bits,
  amd_leaf1_ecx_bits,
  amd_leaf1_edx_bits,
  amd_leaf7_ebx_bits,
  amd_leaf7_ecx_bits,
  amd_leaf7_edx_bits,
  amd_leaf80000001_ebx_bits,
  amd_leaf80000001_ecx_bits,
  amd_leaf80000001_edx_bits]

/-- The hex-input validity condition exactly as the specification claims
it: 8 hexadecimal digits, or exactly 10 characters beginning with the two
characters 0x followed by 8 hexadecimal digits. -/
def claimedValidHex (s : List Char) : Prop :=
  (s.length = 8 ∧ ∀ c ∈ s, (hexDigitVal c).isSome) ∨
  (s.length = 10 ∧ s.take 2 = ['0', 'x'] ∧ ∀ c ∈ s.drop 2, (hexDigitVal c).isSome)

/-- The amended validity condition: the code lowercases the radix marker,
so a 0X marker is accepted as well. -/
def claimedValidHexUpper (s : List Char) : Prop :=
  (s.length = 8 ∧ ∀ c ∈ s, (hexDigitVal c).isSome) ∨
  (s.length = 10 ∧ (s.take 2 = ['0', 'x'] ∨ s.take 2 = ['0', 'X']) ∧
    ∀ c ∈ s.drop 2, (hexDigitVal c).isSome)

/-! ### Enumerator: sub-leaf discovery (probe_max_subleaf) -/

theorem probe_max_subleaf_loop_reaches (probeLeaf : Nat → RegisterQuad) (k : Nat)
    (hne : ∀ i, 1 ≤ i → i < k → (probeLeaf i).eax ≠ (probeLeaf (i - 1)).eax)
    (heq : (probeLeaf k).eax = (probeLeaf (k - 1)).eax) :
    ∀ fuel s, 1 ≤ s → s ≤ k → k - s + 1 ≤ fuel →
      probe_max_subleaf_loop probeLeaf fuel s (some ((probeLeaf (s - 1)).eax)) =
        some ((k : Int) - 1) := by
  intro fuel
  induction fuel with
  | zero => intro s _ _ h3; omega
  | succ n ih =>
    intro s h1 h2 h3
    rw [probe_max_subleaf_loop]
    by_cases hs : s = k
    · subst hs
      rw [if_pos (congrArg some heq.symm)]
    · have hlt : s < k := lt_of_le_of_ne h2 hs
      rw [if_neg (fun hq => hne s h1 hlt (Option.some.inj hq).symm)]
      have := ih (s + 1) (by omega) (by omega) (by omega)
      simpa using this

theorem probe_max_subleaf_finds (probe : Nat → Nat → RegisterQuad)
    (leaf k fuel : Nat) (hk : 1 ≤ k)
    (hne : ∀ i, 1 ≤ i → i < k → (probe leaf i).eax ≠ (probe leaf (i - 1)).eax)
    (heq : (probe leaf k).eax = (probe leaf (k - 1)).eax)
    (hfuel : k + 1 ≤ fuel) :
    probe_max_subleaf probe leaf fuel = some ((k : Int) - 1) ∧
      0 ≤ (k : Int) - 1 := by
  constructor
  · obtain ⟨n, rfl⟩ : ∃ n, fuel = n + 1 := ⟨fuel - 1, by omega⟩
    rw [probe_max_subleaf, probe_max_subleaf_loop, if_neg (by simp)]
    have := probe_max_subleaf_loop_reaches (probe leaf) k hne heq n 1 le_rfl hk
      (by omega)
    simpa using this
  · have : (1 : Int) ≤ (k : Int) := by exact_mod_cast hk
    omega

/-- Claim C2: for every probe oracle with a first consecutive repeat of the
first register at sub-leaf index k, probe_max_subleaf probes sub-leaves in
increasing order from 0, stops at that repeat, and returns k - 1, which is
never negative since k is at least 1. -/
theorem probe_max_subleaf_correct (probe : Nat → Nat → RegisterQuad)
    (leaf k fuel : Nat) (hk : 1 ≤ k)
    (hne : ∀ i, 1 ≤ i → i < k → (probe leaf i).eax ≠ (probe leaf (i - 1)).eax)
    (heq : (probe leaf k).eax = (probe leaf (k - 1)).eax)
    (hfuel : k + 1 ≤ fuel) :
    probe_max_subleaf probe leaf fuel = some ((k : Int) - 1) ∧
      0 ≤ (k : Int) - 1 :=
  probe_max_subleaf_finds probe leaf k fuel hk hne heq hfuel

/-- Witness for C2: the scripted fake probe returning first register 10 for
every sub-leaf repeats at index 1, and the scan reports bound 0. -/
theorem probe_max_subleaf_correct_witness :
    probe_max_subleaf (fun _ _ => ⟨10, 0, 0, 0⟩) 0 2 = some 0 ∧ (0 : Int) ≤ 0 := by
  have h := probe_max_subleaf_correct (fun _ _ => ⟨10, 0, 0, 0⟩) 0 1 2 le_rfl
    (fun i hi1 hi2 => absurd hi1 (by omega)) rfl le_rfl
  exact ⟨by simpa using h.1, le_rfl⟩

/-! ### Enumerator: top-level leaf discovery (max_leaf) -/

theorem max_leaf_loop_reaches (probe : Nat → Nat → RegisterQuad) (k : Nat)
    (hne : ∀ i, i < k → (probe i 0).eax ≠ 0) (heq : (probe k 0).eax = 0) :
    ∀ fuel leaf, leaf ≤ k → k - leaf + 1 ≤ fuel →
      max_leaf_loop probe fuel leaf (leaf - 1) = some (k - 1) := by
  intro fuel
  induction fuel with
  | zero => intro leaf _ h2; omega
  | succ n ih =>
    intro leaf h1 h2
    rw [max_leaf_loop]
    by_cases hs : leaf = k
    · subst hs; rw [if_pos heq]
    · have hlt : leaf < k := lt_of_le_of_ne h1 hs
      rw [if_neg (hne leaf hlt)]
      have := ih (leaf + 1) (by omega) (by omega)
      simpa using this

theorem max_leaf_finds (probe : Nat → Nat → RegisterQuad) (k fuel : Nat)
    (hne : ∀ i, i < k → (probe i 0).eax ≠ 0)
    (heq : (probe k 0).eax = 0) (hfuel : k + 1 ≤ fuel) :
    max_leaf probe fuel = some (k - 1) := by
  have := max_leaf_loop_reaches probe k hne heq fuel 0 (by omega) (by omega)
  simpa [max_leaf] using this

/-- Claim C3: max_leaf probes leaves 0, 1, 2, ... with sub-leaf 0, stops at
the first leaf k whose first register is zero, and returns the largest leaf
recorded before that probe (k - 1, or the initial 0 when k = 0). -/
theorem max_leaf_correct (probe : Nat → Nat → RegisterQuad) (k fuel : Nat)
    (hne : ∀ i, i < k → (probe i 0).eax ≠ 0)
    (heq : (probe k 0).eax = 0) (hfuel : k + 1 ≤ fuel) :
    max_leaf probe fuel = some (k - 1) :=
  max_leaf_finds probe k fuel hne heq hfuel

/-- Witness for C3: the scripted fake probe returning first registers
5, 9, 0 for leaves 0, 1, 2 yields a reported bound of 1. -/
theorem max_leaf_correct_witness :
    max_leaf (fun l _ => ⟨if l = 0 then 5 else if l = 1 then 9 else 0, 0, 0, 0⟩) 3 =
      some 1 := by
  have h := max_leaf_correct
    (fun l _ => ⟨if l = 0 then 5 else if l = 1 then 9 else 0, 0, 0, 0⟩) 2 3
    (fun i hi => by interval_cases i <;> decide) (by decide) le_rfl
  simpa using h

/-! ### Termination characterization of both loops (no iteration ceiling) -/

theorem probe_max_subleaf_loop_some (probeLeaf : Nat → RegisterQuad) :
    ∀ fuel s r,
      probe_max_subleaf_loop probeLeaf fuel (s + 1) (some ((probeLeaf s).eax)) =
        some r →
      ∃ k, 1 ≤ k ∧ (probeLeaf k).eax = (probeLeaf (k - 1)).eax := by
  intro fuel
  induction fuel with
  | zero => intro s r h; simp [probe_max_subleaf_loop] at h
  | succ n ih =>
    intro s r h
    rw [probe_max_subleaf_loop] at h
    by_cases hc : (probeLeaf s).eax = (probeLeaf (s + 1)).eax
    · exact ⟨s + 1, by omega, by simpa using hc.symm⟩
    · rw [if_neg (fun hq => hc (Option.some.inj hq))] at h
      exact ih (s + 1) r h

theorem max_leaf_loop_some (probe : Nat → Nat → RegisterQuad) :
    ∀ fuel leaf ms r, max_leaf_loop probe fuel leaf ms = some r →
      ∃ k, (probe k 0).eax = 0 := by
  intro fuel
  induction fuel with
  | zero => intro leaf ms r h; simp [max_leaf_loop] at h
  | succ n ih =>
    intro leaf ms r h
    rw [max_leaf_loop] at h
    by_cases hc : (probe leaf 0).eax = 0
    · exact ⟨leaf, hc⟩
    · rw [if_neg hc] at h
      exact ih _ _ _ h

theorem probe_max_subleaf_some (probe : Nat → Nat → RegisterQuad) (leaf fuel : Nat)
    (r : Int) (h : probe_max_subleaf probe leaf fuel = some r) :
    ∃ k, 1 ≤ k ∧ (probe leaf k).eax = (probe leaf (k - 1)).eax := by
  rcases fuel with _ | n
  · simp [probe_max_subleaf, probe_max_subleaf_loop] at h
  · rw [probe_max_subleaf, probe_max_subleaf_loop, if_neg (by simp)] at h
    exact probe_max_subleaf_loop_some (probe leaf) n 0 r (by simpa using h)

/-- Claim C7: neither loop has an iteration ceiling; with explicit fuel, the
sub-leaf loop can stop (for some fuel) exactly when the first-register
sequence repeats across two consecutive sub-leaf probes, the top-level loop
exactly when some leaf's first register is zero, and when the respective
condition never holds the loop returns no answer for any amount of fuel. -/
theorem enumeration_termination_iff (probe : Nat → Nat → RegisterQuad) (leaf : Nat) :
    ((∃ fuel r, probe_max_subleaf probe leaf fuel = some r) ↔
      ∃ k, 1 ≤ k ∧ (probe leaf k).eax = (probe leaf (k - 1)).eax) ∧
    ((∃ fuel r, max_leaf probe fuel = some r) ↔ ∃ k, (probe k 0).eax = 0) ∧
    ((¬ ∃ k, 1 ≤ k ∧ (probe leaf k).eax = (probe leaf (k - 1)).eax) →
      ∀ fuel, probe_max_subleaf probe leaf fuel = none) ∧
    ((¬ ∃ k, (probe k 0).eax = 0) → ∀ fuel, max_leaf probe fuel = none) := by
  have hsub : (∃ fuel r, probe_max_subleaf probe leaf fuel = some r) ↔
      ∃ k, 1 ≤ k ∧ (probe leaf k).eax = (probe leaf (k - 1)).eax := by
    constructor
    · rintro ⟨fuel, r, h⟩
      exact probe_max_subleaf_some probe leaf fuel r h
    · intro h
      have hP : ∃ k, 1 ≤ k ∧ (probe leaf k).eax = (probe leaf (k - 1)).eax := h
      let k0 := Nat.find hP
      have hspec := Nat.find_spec hP
      refine ⟨k0 + 1, (k0 : Int) - 1, ?_⟩
      exact (probe_max_subleaf_finds probe leaf k0 (k0 + 1) hspec.1
        (fun i hi1 hi2 => fun hcontra =>
          Nat.find_min hP hi2 ⟨hi1, hcontra⟩) hspec.2 le_rfl).1
  have hleaf : (∃ fuel r, max_leaf probe fuel = some r) ↔
      ∃ k, (probe k 0).eax = 0 := by
    constructor
    · rintro ⟨fuel, r, h⟩
      exact max_leaf_loop_some probe fuel 0 0 r h
    · intro h
      let k0 := Nat.find h
      refine ⟨k0 + 1, k0 - 1, ?_⟩
      exact max_leaf_finds probe k0 (k0 + 1)
        (fun i hi => Nat.find_min h hi) (Nat.find_spec h) le_rfl
  refine ⟨hsub, hleaf, ?_, ?_⟩
  · intro hn fuel
    cases h : probe_max_subleaf probe leaf fuel with
    | none => rfl
    | some r => exact absurd (hsub.mp ⟨fuel, r, h⟩) hn
  · intro hn fuel
    cases h : max_leaf probe fuel with
    | none => rfl
    | some r => exact absurd (hleaf.mp ⟨fuel, r, h⟩) hn

/-- Witness for C7: a probe whose first register is leaf + subleaf + 1 never
repeats consecutively within a leaf and is never zero, so both loops return
no answer at fuel 3. -/
theorem enumeration_termination_iff_witness :
    probe_max_subleaf (fun l s => ⟨l + s + 1, 0, 0, 0⟩) 0 3 = none ∧
      max_leaf (fun l s => ⟨l + s + 1, 0, 0, 0⟩) 3 = none := by
  have h := enumeration_termination_iff (fun l s => ⟨l + s + 1, 0, 0, 0⟩) 0
  refine ⟨h.2.2.1 ?_ 3, h.2.2.2 ?_ 3⟩
  · rintro ⟨k, hk, he⟩
    dsimp only at he
    omega
  · rintro ⟨k, he⟩
    dsimp only at he
    omega

/-! ### Binary text projection (print_bits) -/

theorem fromBase2_foldl (l : List Char) : ∀ acc : Nat,
    l.foldl (fun acc c => 2 * acc + (if c = '1' then 1 else 0)) acc =
      acc * 2 ^ l.length + fromBase2 l := by
  induction l with
  | nil => intro acc; simp [fromBase2]
  | cons c t ih =>
    intro acc
    have hfb : fromBase2 (c :: t) =
        (if c = '1' then 1 else 0) * 2 ^ t.length + fromBase2 t := by
      show List.foldl _ _ (c :: t) = _
      rw [List.foldl_cons, ih]
      ring_nf
    rw [List.foldl_cons, ih, hfb, List.length_cons]
    ring

theorem fromBase2_cons (c : Char) (l : List Char) :
    fromBase2 (c :: l) = (if c = '1' then 1 else 0) * 2 ^ l.length + fromBase2 l := by
  show List.foldl _ _ (c :: l) = _
  rw [List.foldl_cons, fromBase2_foldl]
  ring_nf

theorem print_bits_str_length (v n : Nat) : (print_bits_str v n).length = n := by
  simp [print_bits_str]

theorem print_bits_str_succ (v m : Nat) :
    print_bits_str v (m + 1) = bitChar ((v >>> m) &&& 1) :: print_bits_str v m := by
  simp [print_bits_str, List.range_succ]

theorem fromBase2_print_bits (v : Nat) :
    ∀ n, fromBase2 (print_bits_str v n) = v % 2 ^ n := by
  intro n
  induction n with
  | zero => simp [print_bits_str, fromBase2, Nat.mod_one]
  | succ m ih =>
    rw [print_bits_str_succ, fromBase2_cons, print_bits_str_length, ih]
    rw [Nat.and_one_is_mod, Nat.shiftRight_eq_div_pow]
    have hbit : (if bitChar (v / 2 ^ m % 2) = '1' then 1 else 0) = v / 2 ^ m % 2 := by
      have h2 : v / 2 ^ m % 2 = 0 ∨ v / 2 ^ m % 2 = 1 := Nat.mod_two_eq_zero_or_one _
      rcases h2 with h | h <;> rw [h] <;> decide
    rw [hbit, pow_succ, Nat.mod_mul]
    ring

/-- Claim C5 counterexample: for v = 1 the 32-character binary text is
0...01; reversing it and reinterpreting as base 2 yields 2^31, not 1, so
the reversal step of the claim is wrong. -/
theorem print_bits_reverse_not_roundtrip :
    fromBase2 ((print_bits_str 1 32).reverse) = 2147483648 ∧
      (2147483648 : Nat) ≠ 1 := by
  constructor
  · decide
  · decide

/-- Claim C5 as amended: for every 32-bit value v the binary text of v has
exactly 32 characters drawn from 0/1, most significant bit first, and
reinterpreting it (without reversing) as base 2 reconstructs v. -/
theorem print_bits_roundtrip (v : Nat) (hv : v < 2 ^ 32) :
    (print_bits_str v 32).length = 32 ∧
    (∀ c ∈ print_bits_str v 32, c = '0' ∨ c = '1') ∧
    fromBase2 (print_bits_str v 32) = v := by
  refine ⟨print_bits_str_length v 32, ?_, ?_⟩
  · intro c hc
    simp only [print_bits_str, List.mem_map] at hc
    obtain ⟨i, _, rfl⟩ := hc
    by_cases h : (v >>> i) &&& 1 = 1 <;> simp [bitChar, h] <;> omega
  · rw [fromBase2_print_bits]
    exact Nat.mod_eq_of_lt hv

/-- Witness for C5 (amended): the round trip at v = 5. -/
theorem print_bits_roundtrip_witness :
    (5 : Nat) < 2 ^ 32 ∧ fromBase2 (print_bits_str 5 32) = 5 :=
  ⟨by norm_num, (print_bits_roundtrip 5 (by norm_num)).2.2⟩

/-! ### Packed ASCII, direct integer path (binary_to_char) -/

/-- Claim C6: binary_to_char returns exactly 4 characters; character i is
little-endian byte i of the value (v / 256^i % 256) rendered as its ASCII
character when in 32..126 and as the placeholder dot otherwise, with no
reversal. -/
theorem binary_to_char_spec (v i : Nat) (hi : i < 4) :
    (binary_to_char v).length = 4 ∧
    (binary_to_char v).get? i =
      some (if 32 ≤ v / 256 ^ i % 256 ∧ v / 256 ^ i % 256 ≤ 126
            then Char.ofNat (v / 256 ^ i % 256) else '.') := by
  have hb : ∀ j : Nat, (v >>> (j * 8)) &&& 0xFF = v / 256 ^ j % 256 := by
    intro j
    have h1 : (256 : Nat) ^ j = 2 ^ (j * 8) := by
      rw [show (256 : Nat) = 2 ^ 8 from rfl, ← pow_mul]
      congr 1
      ring
    rw [Nat.shiftRight_eq_div_pow, show (0xFF : Nat) = 2 ^ 8 - 1 from rfl,
      Nat.and_pow_two_sub_one_eq_mod, h1]
  constructor
  · simp [binary_to_char]
  · rw [binary_to_char, List.get?_map, List.get?_range hi]
    rw [Option.map_some']
    rw [printableDot, hb i]

/-- Witness for C6: at v = 0x41564258, character 0 is the least significant
byte 0x58, an X. -/
theorem binary_to_char_spec_witness :
    (0 : Nat) < 4 ∧
    ((binary_to_char 0x41564258).length = 4 ∧
      (binary_to_char 0x41564258).get? 0 =
        some (if 32 ≤ 0x41564258 / 256 ^ 0 % 256 ∧ 0x41564258 / 256 ^ 0 % 256 ≤ 126
              then Char.ofNat (0x41564258 / 256 ^ 0 % 256) else '.')) :=
  ⟨by decide, binary_to_char_spec 0x41564258 0 (by decide)⟩

/-! ### Decoder pass over the bit tables -/

theorem toBinPad_length : ∀ n v, (toBinPad n v).length = n := by
  intro n
  induction n with
  | zero => intro v; rfl
  | succ m ih => intro v; simp [toBinPad, ih]

theorem toBinPad_get? : ∀ n v i, i < n →
    (toBinPad n v).get? (n - 1 - i) = some (bitChar (v / 2 ^ i % 2)) := by
  intro n
  induction n with
  | zero => intro v i hi; omega
  | succ m ih =>
    intro v i hi
    rw [toBinPad]
    by_cases h0 : i = 0
    · subst h0
      have hlen : (toBinPad m (v / 2)).length = m := toBinPad_length m (v / 2)
      rw [show m + 1 - 1 - 0 = m from by omega,
        List.get?_append_right (by omega), hlen]
      simp
    · have hi1 : 1 ≤ i := by omega
      have hlt : m + 1 - 1 - i < (toBinPad m (v / 2)).length := by
        rw [toBinPad_length]; omega
      rw [List.get?_append hlt]
      have := ih (v / 2) (i - 1) (by omega)
      rw [show m - 1 - (i - 1) = m + 1 - 1 - i from by omega] at this
      rw [this]
      have hdiv : v / 2 / 2 ^ (i - 1) = v / 2 ^ i := by
        rw [Nat.div_div_eq_div_mul]
        congr 1
        rw [← pow_succ']
        congr 1
        omega
      rw [hdiv]

theorem toBinPad_zero_eq_replicate : ∀ m, toBinPad m 0 = List.replicate m '0' := by
  intro m
  induction m with
  | zero => rfl
  | succ k ih =>
    rw [toBinPad, Nat.zero_div, ih, List.replicate_succ']
    rfl

theorem zfill_append_singleton (m : Nat) (l : List Char) (c : Char) :
    zfill (m + 1) (l ++ [c]) = zfill m l ++ [c] := by
  rw [zfill, zfill, List.length_append]
  rw [show m + 1 - (l.length + List.length [c]) = m - l.length from by simp only [List.length_cons, List.length_nil]; omega]
  rw [List.append_assoc]

theorem zfill_binDigits_eq_toBinPad :
    ∀ n, 0 < n → ∀ v, v < 2 ^ n → zfill n (binDigits v) = toBinPad n v := by
  intro n
  induction n with
  | zero => intro h; omega
  | succ m ih =>
    intro _ v hv
    by_cases hsmall : v < 2
    · rw [binDigits, dif_pos hsmall, toBinPad, Nat.div_eq_of_lt hsmall,
        toBinPad_zero_eq_replicate]
      simp [zfill]
    · have hm : 0 < m := by
        rcases Nat.eq_zero_or_pos m with h | h
        · subst h; norm_num at hv; omega
        · exact h
      have hv2 : v / 2 < 2 ^ m := by
        have := pow_succ 2 m
        omega
      rw [binDigits, dif_neg hsmall, zfill_append_singleton, ih hm (v / 2) hv2,
        toBinPad]

theorem format032b_eq_toBinPad (v : Nat) (hv : v < 2 ^ 32) :
    format032b v = toBinPad 32 v :=
  zfill_binDigits_eq_toBinPad 32 (by norm_num) v hv

theorem decode_bits_ok (t : List (Nat × String))
    (ht : t.map Prod.fst = (List.range 32).reverse) (reg : Nat)
    (hreg : reg < 2 ^ 32) :
    (decode_bits t reg).length = 32 ∧
    (decode_bits t reg).map (fun e => e.1) = (List.range 32).reverse ∧
    ∀ e ∈ decode_bits t reg,
      e.2.1 = some (bitChar ((reg >>> e.1) &&& 1)) := by
  have hlen : t.length = 32 := by
    have h := congrArg List.length ht
    simpa using h
  refine ⟨by simp [decode_bits, hlen], ?_, ?_⟩
  · rw [decode_bits, List.map_map]
    exact ht
  · intro e he
    rw [decode_bits, List.mem_map] at he
    obtain ⟨p, hp, rfl⟩ := he
    have hbit : p.1 < 32 := by
      have hmem : p.1 ∈ t.map Prod.fst := List.mem_map_of_mem _ hp
      rw [ht, List.mem_reverse, List.mem_range] at hmem
      exact hmem
    show (format032b reg).get? (31 - p.1) = some (bitChar ((reg >>> p.1) &&& 1))
    rw [format032b_eq_toBinPad reg hreg,
      show (31 : Nat) - p.1 = 32 - 1 - p.1 from rfl,
      toBinPad_get? 32 reg p.1 hbit, Nat.and_one_is_mod,
      Nat.shiftRight_eq_div_pow]

/-- Claim C4: for every bit-description table defined in the program and
every 32-bit register value, the decode pass produces exactly 32 entries,
visits the bit positions in the declared order 31 down to 0 (each exactly
once), and each entry's extracted character is bit (register >> position)
and 1 of the register. -/
theorem decode_pass_ok (t : List (Nat × String)) (ht : t ∈ allTables)
    (reg : Nat) (hreg : reg < 2 ^ 32) :
    (decode_bits t reg).length = 32 ∧
    (decode_bits t reg).map (fun e => e.1) = (List.range 32).reverse ∧
    ∀ e ∈ decode_bits t reg,
      e.2.1 = some (bitChar ((reg >>> e.1) &&& 1)) := by
  refine decode_bits_ok t ?_ reg hreg
  fin_cases ht <;> decide

/-- Witness for C4: the Intel leaf-1 ECX table decoding register
0xAAAAAAAA. -/
theorem decode_pass_ok_witness :
    intel_leaf1_ecx_bits ∈ allTables ∧ (0xAAAAAAAA : Nat) < 2 ^ 32 ∧
    ((decode_bits intel_leaf1_ecx_bits 0xAAAAAAAA).length = 32 ∧
      (decode_bits intel_leaf1_ecx_bits 0xAAAAAAAA).map (fun e => e.1) =
        (List.range 32).reverse ∧
      ∀ e ∈ decode_bits intel_leaf1_ecx_bits 0xAAAAAAAA,
        e.2.1 = some (bitChar ((0xAAAAAAAA >>> e.1) &&& 1))) :=
  ⟨List.mem_cons_of_mem _ (List.mem_cons_self _ _), by norm_num,
    decode_pass_ok intel_leaf1_ecx_bits
      (List.mem_cons_of_mem _ (List.mem_cons_self _ _)) 0xAAAAAAAA (by norm_num)⟩

/-! ### Packed ASCII round trip: text path versus integer path -/

theorem hexDigitVal_hexDigitChar : ∀ d, d < 16 →
    hexDigitVal (hexDigitChar d) = some d := by decide

theorem hexDigitChar_ne_x : ∀ d, d < 16 → hexDigitChar d ≠ 'x' := by decide

theorem pair_byte0 (v : Nat) :
    16 * (v / 16 % 16) + v % 16 = (v >>> (0 * 8)) &&& 0xFF := by
  rw [Nat.shiftRight_eq_div_pow, show (0xFF : Nat) = 2 ^ 8 - 1 from rfl,
    Nat.and_pow_two_sub_one_eq_mod, show (2 : Nat) ^ (0 * 8) = 1 from rfl,
    Nat.div_one, show (2 : Nat) ^ 8 = 16 * 16 from rfl, Nat.mod_mul]
  ring

theorem pair_byte1 (v : Nat) :
    16 * (v / 16 ^ 3 % 16) + v / 16 ^ 2 % 16 = (v >>> (1 * 8)) &&& 0xFF := by
  rw [Nat.shiftRight_eq_div_pow, show (0xFF : Nat) = 2 ^ 8 - 1 from rfl,
    Nat.and_pow_two_sub_one_eq_mod]
  have e1 : v / 2 ^ (1 * 8) = v / 16 ^ 2 := by norm_num
  have e2 : v / 16 ^ 3 = v / 16 ^ 2 / 16 := by
    rw [Nat.div_div_eq_div_mul]; norm_num
  rw [e1, e2, show (2 : Nat) ^ 8 = 16 * 16 from rfl, Nat.mod_mul]
  ring

theorem pair_byte2 (v : Nat) :
    16 * (v / 16 ^ 5 % 16) + v / 16 ^ 4 % 16 = (v >>> (2 * 8)) &&& 0xFF := by
  rw [Nat.shiftRight_eq_div_pow, show (0xFF : Nat) = 2 ^ 8 - 1 from rfl,
    Nat.and_pow_two_sub_one_eq_mod]
  have e1 : v / 2 ^ (2 * 8) = v / 16 ^ 4 := by norm_num
  have e2 : v / 16 ^ 5 = v / 16 ^ 4 / 16 := by
    rw [Nat.div_div_eq_div_mul]; norm_num
  rw [e1, e2, show (2 : Nat) ^ 8 = 16 * 16 from rfl, Nat.mod_mul]
  ring

theorem pair_byte3 (v : Nat) :
    16 * (v / 16 ^ 7 % 16) + v / 16 ^ 6 % 16 = (v >>> (3 * 8)) &&& 0xFF := by
  rw [Nat.shiftRight_eq_div_pow, show (0xFF : Nat) = 2 ^ 8 - 1 from rfl,
    Nat.and_pow_two_sub_one_eq_mod]
  have e1 : v / 2 ^ (3 * 8) = v / 16 ^ 6 := by norm_num
  have e2 : v / 16 ^ 7 = v / 16 ^ 6 / 16 := by
    rw [Nat.div_div_eq_div_mul]; norm_num
  rw [e1, e2, show (2 : Nat) ^ 8 = 16 * 16 from rfl, Nat.mod_mul]
  ring

/-- Claim C1: for every 32-bit value, the packed ASCII projection computed
directly from the integer (binary_to_char) equals the one computed from the
8-digit hexadecimal text rendering of the value (hex_to_char), placeholder
substitution included: the text path reads bytes most significant first and
then reverses the characters, which is exactly little-endian byte order. -/
theorem packed_ascii_roundtrip (v : Nat) (hv : v < 2 ^ 32) :
    hex_to_char (hexRender8 v) = some (binary_to_char v) := by
  have hd : ∀ k : Nat, v / 16 ^ k % 16 < 16 := fun k => Nat.mod_lt _ (by norm_num)
  have hstrip : strip0x (hexRender8 v) = hexRender8 v := by
    rw [strip0x, if_neg]
    intro hcontra
    rw [show List.take 2 (hexRender8 v) =
      [hexDigitChar (v / 16 ^ 7 % 16), hexDigitChar (v / 16 ^ 6 % 16)] from rfl]
      at hcontra
    simp only [List.cons.injEq, and_true] at hcontra
    exact hexDigitChar_ne_x _ (hd 6) hcontra.2
  have h7 := hexDigitVal_hexDigitChar _ (hd 7)
  have h6 := hexDigitVal_hexDigitChar _ (hd 6)
  have h5 := hexDigitVal_hexDigitChar _ (hd 5)
  have h4 := hexDigitVal_hexDigitChar _ (hd 4)
  have h3 := hexDigitVal_hexDigitChar _ (hd 3)
  have h2 := hexDigitVal_hexDigitChar _ (hd 2)
  have h1 : hexDigitVal (hexDigitChar (v / 16 % 16)) = some (v / 16 % 16) :=
    hexDigitVal_hexDigitChar _ (Nat.mod_lt _ (by norm_num))
  have h0 : hexDigitVal (hexDigitChar (v % 16)) = some (v % 16) :=
    hexDigitVal_hexDigitChar _ (Nat.mod_lt _ (by norm_num))
  have hpairs : hexPairsToChars (hexRender8 v) =
      some [printableDot (16 * (v / 16 ^ 7 % 16) + v / 16 ^ 6 % 16),
            printableDot (16 * (v / 16 ^ 5 % 16) + v / 16 ^ 4 % 16),
            printableDot (16 * (v / 16 ^ 3 % 16) + v / 16 ^ 2 % 16),
            printableDot (16 * (v / 16 % 16) + v % 16)] := by
    rw [hexRender8]
    simp only [hexPairsToChars, hexPairVal, h7, h6, h5, h4, h3, h2, h1, h0,
      Option.bind, Option.map_some']
  have hbin : binary_to_char v =
      [printableDot ((v >>> (0 * 8)) &&& 0xFF),
       printableDot ((v >>> (1 * 8)) &&& 0xFF),
       printableDot ((v >>> (2 * 8)) &&& 0xFF),
       printableDot ((v >>> (3 * 8)) &&& 0xFF)] := rfl
  simp only [hex_to_char, hstrip]
  rw [show zfill (((hexRender8 v).length + 1) / 2 * 2) (hexRender8 v) =
    hexRender8 v from by simp [zfill, hexRender8]]
  rw [hpairs, Option.map_some']
  refine congrArg some ?_
  rw [hbin]
  simp only [List.reverse_cons, List.reverse_nil, List.nil_append,
    List.cons_append]
  rw [pair_byte0, pair_byte1, pair_byte2, pair_byte3]

/-- Witness for C1: the round trip at v = 0x41564258, the scenario value
from the spec. -/
theorem packed_ascii_roundtrip_witness :
    (0x41564258 : Nat) < 2 ^ 32 ∧
      hex_to_char (hexRender8 0x41564258) = some (binary_to_char 0x41564258) :=
  ⟨by norm_num, packed_ascii_roundtrip 0x41564258 (by norm_num)⟩

/-! ### Hex input validation -/

theorem char_eq_of_toNat {a b : Char} (h : a.toNat = b.toNat) : a = b := by
  have h2 := congrArg Char.ofNat h
  rwa [Char.ofNat_toNat, Char.ofNat_toNat] at h2

theorem isHexCharPy_iff (c : Char) (hc : c.toNat < 128) :
    isHexCharPy c = true ↔ (hexDigitVal c).isSome := by
  have hud : pyUnicodeDigit c.toNat = false := by
    rw [pyUnicodeDigit]
    simp only [decide_eq_false_iff_not]
    omega
  simp only [isHexCharPy, pyIsDigit, hud, Bool.or_false, pyLowerNat,
    hexDigitVal, Bool.or_eq_true, decide_eq_true_eq]
  split_ifs <;> simp <;> omega

/-- Claim C8 counterexamples.  First: the code lowercases the first two
characters before comparing with 0x, so the 10-character string 0X1234ABCD
is accepted even though it does not begin with the lowercase marker the
claim requires.  Second: Python `str.isdigit` accepts Unicode digit
characters, so the 8-character string of Arabic-Indic twos (code point
0x662) is accepted although its characters are not hexadecimal digits. -/
theorem is_valid_hex_input_not_as_claimed :
    (is_valid_hex_input ['0', 'X', '1', '2', '3', '4', 'A', 'B', 'C', 'D'] = true ∧
      ¬ claimedValidHex ['0', 'X', '1', '2', '3', '4', 'A', 'B', 'C', 'D']) ∧
    (is_valid_hex_input (List.replicate 8 (Char.ofNat 0x662)) = true ∧
      ¬ claimedValidHex (List.replicate 8 (Char.ofNat 0x662))) := by
  refine ⟨⟨by decide, ?_⟩, ⟨by decide, ?_⟩⟩ <;> rw [claimedValidHex] <;> decide

/-- Claim C8 (amended): over ASCII strings, is_valid_hex_input accepts
exactly the strings of 8 hexadecimal digits and the 10-character strings
beginning with 0x or 0X followed by 8 hexadecimal digits; and whenever the
first register string is rejected, the register-based inspection does not
decode.  Outside ASCII the code additionally accepts Unicode digit
characters (see the counterexample), so the equivalence is stated on the
ASCII fragment, where the embedding of str.isdigit and str.lower is
exact. -/
theorem is_valid_hex_input_iff (s : List Char)
    (hascii : ∀ c ∈ s, c.toNat < 128) :
    (is_valid_hex_input s = true ↔ claimedValidHexUpper s) ∧
    (∀ ebx ecx edx, is_valid_hex_input s = false →
      inspect_register_leaf_decodes s ebx ecx edx = false) := by
  constructor
  · rw [is_valid_hex_input, claimedValidHexUpper]
    by_cases h8 : s.length = 8
    · rw [if_pos h8]
      simp only [List.all_eq_true]
      constructor
      · intro h
        exact Or.inl ⟨h8, fun c hc =>
          (isHexCharPy_iff c (hascii c hc)).mp (h c hc)⟩
      · rintro (⟨_, h⟩ | ⟨h10, _, _⟩)
        · exact fun c hc => (isHexCharPy_iff c (hascii c hc)).mpr (h c hc)
        · omega
    · rw [if_neg h8]
      by_cases hpre : s.length = 10 ∧
          (s.take 2).map (fun c => pyLowerNat c.toNat) = [48, 120]
      · rw [if_pos hpre]
        obtain ⟨h10, hmap⟩ := hpre
        obtain ⟨a, b, t, rfl⟩ : ∃ a b t, s = a :: b :: t := by
          rcases s with _ | ⟨a, _ | ⟨b, t⟩⟩
          · simp at h10
          · simp at h10
          · exact ⟨a, b, t, rfl⟩
        simp only [List.take_succ_cons, List.take_zero, List.map_cons,
          List.map_nil, List.cons.injEq, and_true] at hmap
        have ha : a = '0' := by
          apply char_eq_of_toNat
          show a.toNat = 48
          have h1 := hmap.1
          rw [pyLowerNat] at h1
          split_ifs at h1 <;> omega
        have hb : b = 'x' ∨ b = 'X' := by
          have h2 := hmap.2
          rw [pyLowerNat] at h2
          split_ifs at h2 with hcase
          · right
            apply char_eq_of_toNat
            show b.toNat = 88
            omega
          · left
            apply char_eq_of_toNat
            show b.toNat = 120
            omega
        simp only [List.drop_succ_cons, List.drop_zero, List.all_eq_true]
        constructor
        · intro h
          refine Or.inr ⟨h10, ?_, fun c hc =>
            (isHexCharPy_iff c (hascii c (List.mem_cons_of_mem _
              (List.mem_cons_of_mem _ hc)))).mp (h c hc)⟩
          subst ha
          rcases hb with rfl | rfl
          · exact Or.inl rfl
          · exact Or.inr rfl
        · rintro (⟨hlen, _⟩ | ⟨_, _, h⟩)
          · simp at hlen h10
            omega
          · exact fun c hc =>
              (isHexCharPy_iff c (hascii c (List.mem_cons_of_mem _
                (List.mem_cons_of_mem _ hc)))).mpr (h c hc)
      · rw [if_neg hpre]
        constructor
        · intro h
          exact absurd h (by simp)
        · rintro (⟨hlen, _⟩ | ⟨h10, hx, _⟩)
          · exact absurd hlen h8
          · refine absurd ⟨h10, ?_⟩ hpre
            rcases hx with hx | hx <;> rw [hx] <;> decide
  · intro ebx ecx edx h
    simp [inspect_register_leaf_decodes, h]

/-- Witness for C8 (amended): the ASCII lowercase-marker input 0x1234abcd
satisfies the amended validity condition via the accepted check. -/
theorem is_valid_hex_input_iff_witness :
    claimedValidHexUpper ['0', 'x', '1', '2', '3', '4', 'a', 'b', 'c', 'd'] :=
  (is_valid_hex_input_iff ['0', 'x', '1', '2', '3', '4', 'a', 'b', 'c', 'd']
    (by decide)).1.mp (by decide)

/-! ### The two hex-to-ASCII routines agree on printable full-width input -/

theorem hexDigitVal_lt {c : Char} {d : Nat} (h : hexDigitVal c = some d) :
    d < 16 := by
  rw [hexDigitVal] at h
  split_ifs at h <;> simp_all <;> omega

theorem hexDigitVal_not_marker {c : Char} {d : Nat}
    (h : hexDigitVal c = some d) : c ≠ 'x' ∧ c ≠ 'X' := by
  refine ⟨?_, ?_⟩ <;> rintro rfl
  · rw [show hexDigitVal 'x' = none from rfl] at h
    exact Option.noConfusion h
  · rw [show hexDigitVal 'X' = none from rfl] at h
    exact Option.noConfusion h

/-- Claim C9: on any 8-hex-digit input whose four encoded bytes are all
printable ASCII, the character-reversing text routine hex_to_char and the
little-endian integer routine int_hex_to_char return the same 4-character
string, namely the little-endian byte rendering. -/
theorem hex_ascii_paths_agree
    (c0 c1 c2 c3 c4 c5 c6 c7 : Char) (d0 d1 d2 d3 d4 d5 d6 d7 : Nat)
    (h0 : hexDigitVal c0 = some d0) (h1 : hexDigitVal c1 = some d1)
    (h2 : hexDigitVal c2 = some d2) (h3 : hexDigitVal c3 = some d3)
    (h4 : hexDigitVal c4 = some d4) (h5 : hexDigitVal c5 = some d5)
    (h6 : hexDigitVal c6 = some d6) (h7 : hexDigitVal c7 = some d7)
    (hp0 : 32 ≤ 16 * d0 + d1 ∧ 16 * d0 + d1 ≤ 126)
    (hp1 : 32 ≤ 16 * d2 + d3 ∧ 16 * d2 + d3 ≤ 126)
    (hp2 : 32 ≤ 16 * d4 + d5 ∧ 16 * d4 + d5 ≤ 126)
    (hp3 : 32 ≤ 16 * d6 + d7 ∧ 16 * d6 + d7 ≤ 126) :
    hex_to_char [c0, c1, c2, c3, c4, c5, c6, c7] =
      int_hex_to_char [c0, c1, c2, c3, c4, c5, c6, c7] ∧
    hex_to_char [c0, c1, c2, c3, c4, c5, c6, c7] =
      some [Char.ofNat (16 * d6 + d7), Char.ofNat (16 * d4 + d5),
            Char.ofNat (16 * d2 + d3), Char.ofNat (16 * d0 + d1)] := by
  have hstrip : strip0x [c0, c1, c2, c3, c4, c5, c6, c7] =
      [c0, c1, c2, c3, c4, c5, c6, c7] := by
    rw [strip0x, if_neg]
    intro hc
    rw [show List.take 2 [c0, c1, c2, c3, c4, c5, c6, c7] = [c0, c1] from rfl] at hc
    simp only [List.cons.injEq, and_true] at hc
    exact (hexDigitVal_not_marker h1).1 hc.2
  have hhex : hex_to_char [c0, c1, c2, c3, c4, c5, c6, c7] =
      some [Char.ofNat (16 * d6 + d7), Char.ofNat (16 * d4 + d5),
            Char.ofNat (16 * d2 + d3), Char.ofNat (16 * d0 + d1)] := by
    simp only [hex_to_char, hstrip]
    rw [show zfill ((([c0, c1, c2, c3, c4, c5, c6, c7] : List Char).length + 1) / 2 * 2)
      [c0, c1, c2, c3, c4, c5, c6, c7] = [c0, c1, c2, c3, c4, c5, c6, c7] from by
        simp [zfill]]
    simp only [hexPairsToChars, hexPairVal, h0, h1, h2, h3, h4, h5, h6, h7,
      Option.bind, Option.map_some']
    rw [show List.reverse [printableDot (16 * d0 + d1), printableDot (16 * d2 + d3),
      printableDot (16 * d4 + d5), printableDot (16 * d6 + d7)] =
      [printableDot (16 * d6 + d7), printableDot (16 * d4 + d5),
       printableDot (16 * d2 + d3), printableDot (16 * d0 + d1)] from by simp]
    rw [show printableDot (16 * d6 + d7) = Char.ofNat (16 * d6 + d7) from by
      rw [printableDot, if_pos hp3]]
    rw [show printableDot (16 * d4 + d5) = Char.ofNat (16 * d4 + d5) from by
      rw [printableDot, if_pos hp2]]
    rw [show printableDot (16 * d2 + d3) = Char.ofNat (16 * d2 + d3) from by
      rw [printableDot, if_pos hp1]]
    rw [show printableDot (16 * d0 + d1) = Char.ofNat (16 * d0 + d1) from by
      rw [printableDot, if_pos hp0]]
  have hl0 := hexDigitVal_lt h0
  have hl1 := hexDigitVal_lt h1
  have hl2 := hexDigitVal_lt h2
  have hl3 := hexDigitVal_lt h3
  have hl4 := hexDigitVal_lt h4
  have hl5 := hexDigitVal_lt h5
  have hl6 := hexDigitVal_lt h6
  have hl7 := hexDigitVal_lt h7
  have hmark : ¬ (List.take 2 [c0, c1, c2, c3, c4, c5, c6, c7] = ['0', 'x'] ∨
      List.take 2 [c0, c1, c2, c3, c4, c5, c6, c7] = ['0', 'X']) := by
    rw [show List.take 2 [c0, c1, c2, c3, c4, c5, c6, c7] = [c0, c1] from rfl]
    rintro (hc | hc) <;> simp only [List.cons.injEq, and_true] at hc
    · exact (hexDigitVal_not_marker h1).1 hc.2
    · exact (hexDigitVal_not_marker h1).2 hc.2
  have hcore : pythonIntHexCore [c0, c1, c2, c3, c4, c5, c6, c7] =
      some (16 * (16 * (16 * (16 * (16 * (16 * (16 * d0 + d1) + d2) + d3) + d4)
        + d5) + d6) + d7) := by
    simp only [pythonIntHexCore, List.foldl, h0, h1, h2, h3, h4, h5, h6, h7,
      Option.bind, Option.map_some', Nat.mul_zero, Nat.zero_add]
  have hV : pythonIntHex [c0, c1, c2, c3, c4, c5, c6, c7] =
      some (16 * (16 * (16 * (16 * (16 * (16 * (16 * d0 + d1) + d2) + d3) + d4)
        + d5) + d6) + d7) := by
    simp only [pythonIntHex]
    rw [if_neg hmark, if_neg (by simp), hcore]
  have hint : int_hex_to_char [c0, c1, c2, c3, c4, c5, c6, c7] =
      some [Char.ofNat (16 * d6 + d7), Char.ofNat (16 * d4 + d5),
            Char.ofNat (16 * d2 + d3), Char.ofNat (16 * d0 + d1)] := by
    rw [int_hex_to_char, hV]
    set V := 16 * (16 * (16 * (16 * (16 * (16 * (16 * d0 + d1) + d2) + d3) + d4)
      + d5) + d6) + d7 with hVdef
    simp only [Option.bind]
    have hfit : V < 2 ^ 32 := by
      rw [hVdef]
      norm_num
      omega
    have e0 : V % 256 = 16 * d6 + d7 := by rw [hVdef]; omega
    have e1 : V / 2 ^ 8 % 256 = 16 * d4 + d5 := by
      rw [hVdef, show (2 : Nat) ^ 8 = 256 from rfl]
      omega
    have e2 : V / 2 ^ 16 % 256 = 16 * d2 + d3 := by
      rw [hVdef, show (2 : Nat) ^ 16 = 65536 from rfl]
      omega
    have e3 : V / 2 ^ 24 % 256 = 16 * d0 + d1 := by
      rw [hVdef, show (2 : Nat) ^ 24 = 16777216 from rfl]
      omega
    rw [show toBytesLe4 V = some [V % 256, V / 2 ^ 8 % 256, V / 2 ^ 16 % 256,
      V / 2 ^ 24 % 256] from by rw [toBytesLe4, if_pos hfit]]
    rw [e0, e1, e2, e3, Option.map_some']
    rw [show decodeAsciiIgnore [16 * d6 + d7, 16 * d4 + d5, 16 * d2 + d3,
      16 * d0 + d1] = [Char.ofNat (16 * d6 + d7), Char.ofNat (16 * d4 + d5),
      Char.ofNat (16 * d2 + d3), Char.ofNat (16 * d0 + d1)] from by
        simp [decodeAsciiIgnore, List.filter_cons,
          decide_eq_true (show 16 * d6 + d7 < 128 by omega),
          decide_eq_true (show 16 * d4 + d5 < 128 by omega),
          decide_eq_true (show 16 * d2 + d3 < 128 by omega),
          decide_eq_true (show 16 * d0 + d1 < 128 by omega)]]
  exact ⟨hhex.trans hint.symm, hhex⟩

/-- Witness for C9: the spec scenario input 41564258 decodes to XBVA along
both paths. -/
theorem hex_ascii_paths_agree_witness :
    hex_to_char ['4', '1', '5', '6', '4', '2', '5', '8'] =
      int_hex_to_char ['4', '1', '5', '6', '4', '2', '5', '8'] ∧
    hex_to_char ['4', '1', '5', '6', '4', '2', '5', '8'] =
      some [Char.ofNat (16 * 5 + 8), Char.ofNat (16 * 4 + 2),
            Char.ofNat (16 * 5 + 6), Char.ofNat (16 * 4 + 1)] :=
  hex_ascii_paths_agree '4' '1' '5' '6' '4' '2' '5' '8' 4 1 5 6 4 2 5 8
    (by decide) (by decide) (by decide) (by decide) (by decide) (by decide)
    (by decide) (by decide) (by decide) (by decide) (by decide) (by decide)

/-! ### Output length of the text-based packed ASCII path -/

theorem hexPairsToChars_some :
    ∀ n (l : List Char), l.length ≤ n → (∀ c ∈ l, (hexDigitVal c).isSome) →
      ∃ out, hexPairsToChars l = some out ∧ out.length = (l.length + 1) / 2 := by
  intro n
  induction n with
  | zero =>
    intro l hl _
    have : l = [] := List.eq_nil_of_length_eq_zero (by omega)
    subst this
    exact ⟨[], rfl, by simp⟩
  | succ m ih =>
    intro l hl hd
    rcases l with _ | ⟨c1, _ | ⟨c2, rest⟩⟩
    · exact ⟨[], rfl, by simp⟩
    · obtain ⟨b, hb⟩ := Option.isSome_iff_exists.mp (hd c1 (by simp))
      exact ⟨[printableDot b], by simp [hexPairsToChars, hb], by simp⟩
    · obtain ⟨b1, hb1⟩ := Option.isSome_iff_exists.mp (hd c1 (by simp))
      obtain ⟨b2, hb2⟩ := Option.isSome_iff_exists.mp (hd c2 (by simp))
      obtain ⟨out, hout, hlen⟩ := ih rest
        (by simp only [List.length_cons] at hl; omega)
        (fun c hc => hd c (by simp [hc]))
      refine ⟨printableDot (16 * b1 + b2) :: out, ?_, ?_⟩
      · simp [hexPairsToChars, hexPairVal, hb1, hb2, hout]
      · simp only [List.length_cons, hlen]
        omega

/-- Claim C10 counterexample: a 7-digit input is zero-filled to 8 digits and
still produces 4 characters, so inputs shorter than 8 digits do not always
produce strings shorter than 4 characters. -/
theorem hex_to_char_7_digits :
    (['1', '5', '6', '4', '2', '5', '8'] : List Char).length = 7 ∧
    hex_to_char ['1', '5', '6', '4', '2', '5', '8'] =
      some ['X', 'B', 'V', '.'] := by
  constructor
  · decide
  · decide

/-- Claim C10 (amended): on a hex input with n digits after stripping an
optional 0x marker (1 <= n <= 8), hex_to_char returns exactly
ceil(n / 2) characters; in particular inputs with fewer than 7 digits
produce strings shorter than 4 characters, so the text path does not
zero-extend its input to a full 32-bit value. -/
theorem hex_to_char_length (s : List Char)
    (hdigits : ∀ c ∈ strip0x s, (hexDigitVal c).isSome)
    (hlow : 1 ≤ (strip0x s).length) (hhigh : (strip0x s).length ≤ 8) :
    ∃ out, hex_to_char s = some out ∧
      out.length = ((strip0x s).length + 1) / 2 ∧
      ((strip0x s).length < 7 → out.length < 4) := by
  simp only [hex_to_char]
  set t := strip0x s with ht
  set w := (t.length + 1) / 2 * 2 with hw
  have hzlen : (zfill w t).length = w := by
    rw [zfill]
    simp only [List.length_append, List.length_replicate]
    omega
  have hzdig : ∀ c ∈ zfill w t, (hexDigitVal c).isSome := by
    intro c hc
    rw [zfill, List.mem_append] at hc
    rcases hc with hc | hc
    · rw [List.eq_of_mem_replicate hc]
      decide
    · exact hdigits c hc
  obtain ⟨out, hout, hlen⟩ := hexPairsToChars_some (zfill w t).length (zfill w t)
    le_rfl hzdig
  refine ⟨out.reverse, ?_, ?_, ?_⟩
  · rw [hout, Option.map_some']
  · rw [List.length_reverse, hlen, hzlen]
    omega
  · intro h7
    rw [List.length_reverse, hlen, hzlen]
    omega

/-- Witness for C10 (amended): the 3-digit input abc yields a 2-character
string. -/
theorem hex_to_char_length_witness :
    (∀ c ∈ strip0x ['a', 'b', 'c'], (hexDigitVal c).isSome) ∧
    ∃ out, hex_to_char ['a', 'b', 'c'] = some out ∧
      out.length = ((strip0x ['a', 'b', 'c']).length + 1) / 2 ∧
      ((strip0x ['a', 'b', 'c']).length < 7 → out.length < 4) :=
  ⟨by decide, hex_to_char_length ['a', 'b', 'c'] (by decide) (by decide) (by decide)⟩

end ChipInspect
